import Mathlib

/-!
Verification development for the `traced_dds` propagation engine
(src/include/traced_dds.hpp and the services built on it).

The C++ source is shallowly embedded: strings are lists of ASCII codes
(`HexStr`), 128-bit trace ids and 64-bit span ids are lists of byte values
(`Bytes`, 16 resp. 8 entries), and the stateful interceptors are explicit
state-passing functions.  Machine integers never overflow in the modelled
code (all arithmetic lives below 256), so plain `Nat` is used.
-/

/-- A byte string: each element is one byte value (used for ids, 0..255). -/
abbrev Bytes := List Nat

/-- A C string modelled as its list of character codes (no NUL terminator;
the model covers NUL-free strings, on which `strlen` is the list length). -/
abbrev HexStr := List Nat

/-- The default-constructed `trace_api::TraceId()`: 16 zero bytes, the
"absent"/invalid sentinel. -/
def absentTraceId : Bytes := List.replicate 16 0

/-- The default-constructed `trace_api::SpanId()`: 8 zero bytes. -/
def absentSpanId : Bytes := List.replicate 8 0

/-- `TraceId::IsValid()`: some byte is nonzero. -/
def traceIdIsValid (t : Bytes) : Bool := t.any (fun b => b ≠ 0)

/-- `SpanId::IsValid()`: some byte is nonzero. -/
def spanIdIsValid (s : Bytes) : Bool := s.any (fun b => b ≠ 0)

/-- Lowercase hex digit character code for a nibble `n < 16`
(`'0'` = 48, `'a'` = 97). -/
def hexDigitLower (n : Nat) : Nat := if n < 10 then 48 + n else 87 + n

/-- Hex value of a character code, as `sscanf`'s `%x` accepts digits:
`0-9`, `a-f`, `A-F`; `none` for every other character. -/
def hexVal? (c : Nat) : Option Nat :=
  if 48 ≤ c ∧ c ≤ 57 then some (c - 48)
  else if 97 ≤ c ∧ c ≤ 102 then some (c - 87)
  else if 65 ≤ c ∧ c ≤ 70 then some (c - 55)
  else none

/-- Model of one `sscanf(p, "%2hhx", &b)` call at a two-character window
`c1 c2` (for inputs free of whitespace and sign characters, which is the
case for all inputs reaching it in the source): two hex digits convert to
`16*v1+v2`; a single leading hex digit converts to `v1`; if `c1` is not a
hex digit no conversion happens and the destination byte keeps its
indeterminate stack value `junk`. -/
def sscanf2 (junk c1 c2 : Nat) : Nat :=
  match hexVal? c1, hexVal? c2 with
  | some v1, some v2 => 16 * v1 + v2
  | some v1, none => v1
  | none, _ => junk

/-- The byte-pair decode loop of `hex_to_trace_id` / `hex_to_span_id`:
`buf[i]` is read from the two characters at offset `2*i`; `junk i` is the
indeterminate initial content of `buf[i]`. -/
def decodePairs (junk : Nat → Nat) (i : Nat) : HexStr → Bytes
  | c1 :: c2 :: rest => sscanf2 (junk i) c1 c2 :: decodePairs junk (i + 1) rest
  | _ => []

/-- `ToLowerBase16` over a byte list: each byte becomes two lowercase hex
character codes, in byte order. -/
def bytesToHex : Bytes → HexStr
  | [] => []
  | b :: bs => hexDigitLower (b / 16) :: hexDigitLower (b % 16) :: bytesToHex bs

/-- `internal::trace_id_to_hex`: 32 lowercase hex characters. -/
def trace_id_to_hex (id : Bytes) : HexStr := bytesToHex id

/-- `internal::span_id_to_hex`: 16 lowercase hex characters. -/
def span_id_to_hex (id : Bytes) : HexStr := bytesToHex id

/-- `internal::hex_to_trace_id`: length-guarded decode; any input whose
length differs from 32 yields the default (all-zero) `TraceId`. -/
def hex_to_trace_id (junk : Nat → Nat) (hex : HexStr) : Bytes :=
  if hex.length = 32 then decodePairs junk 0 hex else absentTraceId

/-- `internal::hex_to_span_id`: length-guarded decode; any input whose
length differs from 16 yields the default (all-zero) `SpanId`. -/
def hex_to_span_id (junk : Nat → Nat) (hex : HexStr) : Bytes :=
  if hex.length = 16 then decodePairs junk 0 hex else absentSpanId

lemma hexVal_hexDigitLower (n : Nat) (h : n < 16) :
    hexVal? (hexDigitLower n) = some n := by
  interval_cases n <;> rfl

lemma sscanf2_round (j b : Nat) (h : b < 256) :
    sscanf2 j (hexDigitLower (b / 16)) (hexDigitLower (b % 16)) = b := by
  have h1 : b / 16 < 16 := by omega
  have h2 : b % 16 < 16 := by omega
  simp only [sscanf2, hexVal_hexDigitLower _ h1, hexVal_hexDigitLower _ h2]
  omega

lemma bytesToHex_length (bs : Bytes) : (bytesToHex bs).length = 2 * bs.length := by
  induction bs with
  | nil => rfl
  | cons b bs ih => simp [bytesToHex, ih]; omega

lemma decodePairs_bytesToHex (junk : Nat → Nat) :
    ∀ (bytes : Bytes) (i : Nat), (∀ b ∈ bytes, b < 256) →
      decodePairs junk i (bytesToHex bytes) = bytes := by
  intro bytes
  induction bytes with
  | nil => intro i _; rfl
  | cons b bs ih =>
    intro i h
    have hb : b < 256 := h b (List.mem_cons_self _ _)
    have hbs : ∀ x ∈ bs, x < 256 := fun x hx => h x (List.mem_cons_of_mem _ hx)
    simp only [bytesToHex, decodePairs]
    rw [sscanf2_round _ b hb, ih (i + 1) hbs]

lemma hex_to_trace_id_round (junk : Nat → Nat) (tb : Bytes)
    (hl : tb.length = 16) (hb : ∀ b ∈ tb, b < 256) :
    hex_to_trace_id junk (trace_id_to_hex tb) = tb := by
  have h32 : (trace_id_to_hex tb).length = 32 := by
    simp [trace_id_to_hex, bytesToHex_length, hl]
  simp only [trace_id_to_hex] at h32 ⊢
  simp [hex_to_trace_id, h32, decodePairs_bytesToHex junk tb 0 hb]

lemma hex_to_span_id_round (junk : Nat → Nat) (sb : Bytes)
    (hl : sb.length = 8) (hb : ∀ b ∈ sb, b < 256) :
    hex_to_span_id junk (span_id_to_hex sb) = sb := by
  have h16 : (span_id_to_hex sb).length = 16 := by
    simp [span_id_to_hex, bytesToHex_length, hl]
  simp only [span_id_to_hex] at h16 ⊢
  simp [hex_to_span_id, h16, decodePairs_bytesToHex junk sb 0 hb]

/-! ## Span model

Spans are the `opentelemetry-cpp` v1.12.0 SDK spans as the engine uses
them: `SetStatus` overwrites the recorded status while the span is open and
is a no-op after `End`; `End` is idempotent.  `Tracer::StartSpan` with a
valid parent option inherits the parent's trace id and records the parent's
span id; without a valid parent it starts a root span with a freshly
generated trace id (the ambient `WithActiveSpan` context is not modelled;
in the modelled call sites no ambient span is active at the relevant
entry points).  Fresh random ids from the id generator are supplied as
explicit `SpanContext` arguments. -/

/-- An immutable `(trace_id, span_id)` pair, as `trace_api::SpanContext`
carries them (flags/remote are not needed by the claims). -/
structure SpanContext where
  traceId : Bytes
  spanId : Bytes
deriving DecidableEq

/-- `SpanContext::IsValid()`: both ids nonzero. -/
def spanContextIsValid (c : SpanContext) : Bool :=
  traceIdIsValid c.traceId && spanIdIsValid c.spanId

/-- Span status as in the OTel data model. -/
inductive SpanStatus where
  | unset
  | ok
  | error (desc : String)
deriving DecidableEq

/-- A cross-trace link plus correlating tag, as `traced::TraceLink` is
built in src/services/track-fusion/main.cpp (string trace id, string span
id, source identifier). -/
structure TraceLink where
  trace_id : HexStr
  span_id : HexStr
  sensor_id : String
deriving DecidableEq

/-- The observable state of one SDK span. -/
structure Span where
  name : String
  traceId : Bytes
  spanId : Bytes
  parentSpanId : Bytes
  status : SpanStatus
  ended : Bool
  links : List TraceLink
deriving DecidableEq

/-- `Span::SetStatus`: overwrites while open, no-op once ended. -/
def Span.setStatus (s : Span) (c : SpanStatus) : Span :=
  if s.ended then s else { s with status := c }

/-- `Span::End`: idempotent close. -/
def Span.End (s : Span) : Span :=
  if s.ended then s else { s with ended := true }

/-- `Tracer::StartSpan`: with a valid parent span context the new span
joins the parent's trace; otherwise it is a root span on a fresh trace.
`fresh` supplies the id generator's newly generated ids. -/
def startSpan (nm : String) (parent : Option SpanContext) (fresh : SpanContext) : Span :=
  match parent with
  | some p =>
    if spanContextIsValid p then
      { name := nm, traceId := p.traceId, spanId := fresh.spanId,
        parentSpanId := p.spanId, status := SpanStatus.unset, ended := false, links := [] }
    else
      { name := nm, traceId := fresh.traceId, spanId := fresh.spanId,
        parentSpanId := absentSpanId, status := SpanStatus.unset, ended := false, links := [] }
  | none =>
      { name := nm, traceId := fresh.traceId, spanId := fresh.spanId,
        parentSpanId := absentSpanId, status := SpanStatus.unset, ended := false, links := [] }

lemma Span.End_ended (s : Span) : (Span.End s).ended = true := by
  by_cases h : s.ended <;> simp [Span.End, h]

lemma Span.End_status (s : Span) : (Span.End s).status = s.status := by
  by_cases h : s.ended <;> simp [Span.End, h]

lemma Span.End_traceId (s : Span) : (Span.End s).traceId = s.traceId := by
  by_cases h : s.ended <;> simp [Span.End, h]

lemma Span.End_parentSpanId (s : Span) : (Span.End s).parentSpanId = s.parentSpanId := by
  by_cases h : s.ended <;> simp [Span.End, h]

lemma Span.setStatus_status (s : Span) (c : SpanStatus) (h : s.ended = false) :
    (s.setStatus c).status = c := by
  simp [Span.setStatus, h]

lemma Span.setStatus_traceId (s : Span) (c : SpanStatus) :
    (s.setStatus c).traceId = s.traceId := by
  by_cases h : s.ended <;> simp [Span.setStatus, h]

lemma Span.setStatus_parentSpanId (s : Span) (c : SpanStatus) :
    (s.setStatus c).parentSpanId = s.parentSpanId := by
  by_cases h : s.ended <;> simp [Span.setStatus, h]

lemma Span.setStatus_ended (s : Span) (c : SpanStatus) :
    (s.setStatus c).ended = s.ended := by
  by_cases h : s.ended <;> simp [Span.setStatus, h]

lemma startSpan_ended (nm : String) (p : Option SpanContext) (f : SpanContext) :
    (startSpan nm p f).ended = false := by
  cases p with
  | none => rfl
  | some c => by_cases h : spanContextIsValid c <;> simp [startSpan, h]

lemma startSpan_none (nm : String) (f : SpanContext) :
    startSpan nm none f =
      { name := nm, traceId := f.traceId, spanId := f.spanId,
        parentSpanId := absentSpanId, status := SpanStatus.unset, ended := false, links := [] } :=
  rfl

lemma startSpan_some_valid (nm : String) (p : SpanContext) (f : SpanContext)
    (h : spanContextIsValid p = true) :
    startSpan nm (some p) f =
      { name := nm, traceId := p.traceId, spanId := f.spanId,
        parentSpanId := p.spanId, status := SpanStatus.unset, ended := false, links := [] } := by
  simp [startSpan, h]

/-! ## Writer (PublishInterceptor)

`traced::Writer<T>::write` and `Writer::inject` from
src/include/traced_dds.hpp lines 177-226.  The thread-local strings
`g_active_trace_id` / `g_active_span_id` are passed in explicitly; the
transport result of `dds_write` is the integer parameter `ddsRet`; `junk`
models the indeterminate decode buffers; `fresh` the id generator. -/

/-- The outgoing message's `trace_ctx` field (`internal::TraceContextAccessor`). -/
structure MsgTraceCtx where
  trace_id : HexStr
  span_id : HexStr
  parent_span_id : HexStr
  trace_flags : Nat
deriving DecidableEq

/-- `Writer::inject`: writes the span's own ids into the message, always
setting `parent_span_id` to the empty string and `trace_flags` to 1. -/
def Writer.inject (span : Span) : MsgTraceCtx :=
  { trace_id := trace_id_to_hex span.traceId,
    span_id := span_id_to_hex span.spanId,
    parent_span_id := [],
    trace_flags := 1 }

/-- The span-start step of `Writer::write`: continuation when both
thread-local context strings are non-empty, root otherwise. -/
def writeStartSpan (junk : Nat → Nat) (fresh : SpanContext)
    (activeTraceId activeSpanId : HexStr) (nm : String) : Span :=
  if activeTraceId ≠ [] ∧ activeSpanId ≠ [] then
    startSpan nm
      (some { traceId := hex_to_trace_id junk activeTraceId,
              spanId := hex_to_span_id junk activeSpanId }) fresh
  else
    startSpan nm none fresh

/-- Result of one `Writer::write` call: returned boolean, final span
state, and the trace context injected into the outgoing message. -/
structure WriteOut where
  ok : Bool
  span : Span
  msgCtx : MsgTraceCtx
deriving DecidableEq

/-- `Writer::write`: start span (root or continuation), inject context
into the message, call the transport, set status from the transport
result, end the span, return the transport verdict. -/
def Writer.write (junk : Nat → Nat) (fresh : SpanContext) (ddsRet : Int)
    (activeTraceId activeSpanId : HexStr) (spanName : String) : WriteOut :=
  let span0 := writeStartSpan junk fresh activeTraceId activeSpanId spanName
  let msgCtx := Writer.inject span0
  let span1 :=
    if 0 ≤ ddsRet then span0.setStatus SpanStatus.ok
    else span0.setStatus (SpanStatus.error "DDS write failed")
  { ok := decide (0 ≤ ddsRet), span := span1.End, msgCtx := msgCtx }

lemma writeStartSpan_empty (junk : Nat → Nat) (fresh : SpanContext) (nm : String) :
    writeStartSpan junk fresh [] [] nm = startSpan nm none fresh := by
  simp [writeStartSpan]

lemma writeStartSpan_ended (junk : Nat → Nat) (fresh : SpanContext)
    (ta sa : HexStr) (nm : String) :
    (writeStartSpan junk fresh ta sa nm).ended = false := by
  unfold writeStartSpan
  split <;> exact startSpan_ended _ _ _

lemma write_span_ids (junk : Nat → Nat) (fresh : SpanContext) (ddsRet : Int)
    (ta sa : HexStr) (nm : String) :
    (Writer.write junk fresh ddsRet ta sa nm).span.traceId =
      (writeStartSpan junk fresh ta sa nm).traceId ∧
    (Writer.write junk fresh ddsRet ta sa nm).span.parentSpanId =
      (writeStartSpan junk fresh ta sa nm).parentSpanId := by
  unfold Writer.write
  by_cases h : 0 ≤ ddsRet <;>
    simp [h, Span.End_traceId, Span.End_parentSpanId,
      Span.setStatus_traceId, Span.setStatus_parentSpanId]

/-! ## Reader (SubscribeInterceptor)

`traced::Reader<T>::take` from src/include/traced_dds.hpp lines 266-317.
The batch returned by `dds_take` is the `List Sample`; the user callback's
observable effect on the span is a `HandlerAct` per sample index: an
optional `SetStatus` call followed by either a normal return or a thrown
exception.  The body has no try/catch, so a thrown exception unwinds out
of `take` at the `callback(*msg, *span)` call site, skipping the explicit
cleanup after it for the current message and skipping all later samples;
during that unwinding the local `span` handle (the last reference to the
v1.12.0 SDK span) is destroyed, and the SDK `Span` destructor calls
`End()`, so the aborted message's span is still ended — with whatever
status it had at the throw — while the thread-local context strings are
left as the loop set them. -/

/-- One entry of the `dds_take` batch: the `valid_data` flag and the
message's embedded context strings (a null C string is modelled as the
empty string, exactly as the source replaces null with `""`). -/
structure Sample where
  valid : Bool
  trace_id : HexStr
  span_id : HexStr
deriving DecidableEq

/-- What one handler invocation does to its span before returning or
throwing. -/
structure HandlerAct where
  setStatus : Option SpanStatus
  raises : Bool
deriving DecidableEq

/-- Apply the handler's optional `SetStatus` call. -/
def applyAct (s : Span) (a : HandlerAct) : Span :=
  match a.setStatus with
  | some st => s.setStatus st
  | none => s

/-- Observable outcome of one `Reader::take` call: whether an exception
escaped, the `processed` counter, the final thread-local context strings
and the final state of every span the call started (in batch order). -/
structure TakeOut where
  raised : Bool
  processed : Nat
  activeTraceId : HexStr
  activeSpanId : HexStr
  spans : List Span
deriving DecidableEq

/-- The per-sample loop of `Reader::take`.  `i` is the sample index,
`ta`/`sa` the current thread-local `g_active_trace_id`/`g_active_span_id`,
`p` the `processed` counter and `acc` the spans started so far. -/
def takeLoop (junk : Nat → Nat) (fresh : Nat → SpanContext) (acts : Nat → HandlerAct)
    (nm : String) : List Sample → Nat → HexStr → HexStr → Nat → List Span → TakeOut
  | [], _, ta, sa, p, acc =>
    { raised := false, processed := p, activeTraceId := ta, activeSpanId := sa, spans := acc }
  | s :: rest, i, ta, sa, p, acc =>
    if s.valid then
      let parent : SpanContext :=
        { traceId := hex_to_trace_id junk s.trace_id,
          spanId := hex_to_span_id junk s.span_id }
      let span0 := startSpan nm (some parent) (fresh i)
      let ta1 := trace_id_to_hex span0.traceId
      let sa1 := span_id_to_hex span0.spanId
      let span1 := applyAct span0 (acts i)
      if (acts i).raises then
        { raised := true, processed := p, activeTraceId := ta1, activeSpanId := sa1,
          spans := acc ++ [span1.End] }
      else
        takeLoop junk fresh acts nm rest (i + 1) [] [] (p + 1)
          (acc ++ [(span1.setStatus SpanStatus.ok).End])
    else
      takeLoop junk fresh acts nm rest (i + 1) ta sa p acc

/-- `Reader::take`: run the loop over the batch from the entry values of
the thread-local context strings; an empty or failed `dds_take` is the
empty batch. -/
def Reader.take (junk : Nat → Nat) (fresh : Nat → SpanContext) (acts : Nat → HandlerAct)
    (nm : String) (samples : List Sample) (ta sa : HexStr) : TakeOut :=
  takeLoop junk fresh acts nm samples 0 ta sa 0 []

/-! ## Process tracing state (ProcessTracingState)

`internal::do_init` from src/include/traced_dds.hpp lines 57-86: resolves
the two environment settings with defaults and flips the initialized
flag; a second call is a no-op.  The exporter/tracer plumbing has no
observable effect on the claims and is not modelled. -/

/-- The process-wide tracing globals set by `do_init`. -/
structure InitState where
  initialized : Bool
  serviceName : String
  endpoint : String
deriving DecidableEq

/-- `internal::do_init`: one-shot configuration resolution with defaults
`"unknown-service"` and `"http://localhost:4318/v1/traces"`. -/
def do_init (st : InitState) (envServiceName envEndpoint : Option String) : InitState :=
  if st.initialized then st
  else
    { initialized := true,
      serviceName := envServiceName.getD "unknown-service",
      endpoint := envEndpoint.getD "http://localhost:4318/v1/traces" }

/-! ## Fan-in correlator -/

/-- Modelled from the spec: `traced::create_linked_span(name, links)` is
declared and called in src/services/track-fusion/main.cpp but its
definition is not under src/.  Spec section 4.5 (FanInCorrelator): it
always starts a new root trace — never parented on any input — and records
each input context as a non-parenting link with its correlating tag;
`fresh` supplies the id generator's newly generated root ids. -/
def create_linked_span (fresh : SpanContext) (nm : String) (links : List TraceLink) : Span :=
  { name := nm, traceId := fresh.traceId, spanId := fresh.spanId,
    parentSpanId := absentSpanId, status := SpanStatus.unset, ended := false,
    links := links }

/-! ## Loop invariants of `Reader::take` -/

lemma takeLoop_clears (junk : Nat → Nat) (fresh : Nat → SpanContext)
    (acts : Nat → HandlerAct) (nm : String)
    (hnr : ∀ i, (acts i).raises = false) :
    ∀ (samples : List Sample) (i p : Nat) (acc : List Span),
      (takeLoop junk fresh acts nm samples i [] [] p acc).activeTraceId = [] ∧
      (takeLoop junk fresh acts nm samples i [] [] p acc).activeSpanId = [] := by
  intro samples
  induction samples with
  | nil => intro i p acc; exact ⟨rfl, rfl⟩
  | cons s rest ih =>
    intro i p acc
    by_cases hv : s.valid
    · simp only [takeLoop, hv, hnr i, if_true, if_false, Bool.false_eq_true]
      exact ih (i + 1) (p + 1) _
    · simp only [takeLoop, hv, Bool.false_eq_true, if_false]
      exact ih (i + 1) p acc

lemma takeLoop_finalize (junk : Nat → Nat) (fresh : Nat → SpanContext)
    (acts : Nat → HandlerAct) (nm : String) :
    ∀ (samples : List Sample) (i p : Nat) (ta sa : HexStr) (acc : List Span),
      (∀ s ∈ acc, s.ended = true) → acc.length = p →
      (∀ s ∈ (takeLoop junk fresh acts nm samples i ta sa p acc).spans, s.ended = true) ∧
      ((takeLoop junk fresh acts nm samples i ta sa p acc).raised = false →
        (takeLoop junk fresh acts nm samples i ta sa p acc).spans.length =
          (takeLoop junk fresh acts nm samples i ta sa p acc).processed ∧
        (takeLoop junk fresh acts nm samples i ta sa p acc).processed =
          p + (samples.filter (fun s => s.valid)).length) ∧
      ((takeLoop junk fresh acts nm samples i ta sa p acc).raised = true →
        (takeLoop junk fresh acts nm samples i ta sa p acc).spans.length =
          (takeLoop junk fresh acts nm samples i ta sa p acc).processed + 1) := by
  intro samples
  induction samples with
  | nil =>
    intro i p ta sa acc hacc hlen
    refine ⟨hacc, fun _ => ⟨by simp [takeLoop, hlen], by simp [takeLoop]⟩, fun hr => ?_⟩
    simp [takeLoop] at hr
  | cons s rest ih =>
    intro i p ta sa acc hacc hlen
    by_cases hv : s.valid
    · by_cases hr : (acts i).raises
      · simp only [takeLoop, hv, hr, if_true]
        refine ⟨?_, fun hf => by simp at hf, fun _ => by simp [hlen]⟩
        intro x hx
        rcases List.mem_append.mp hx with h | h
        · exact hacc x h
        · rcases List.mem_singleton.mp h with rfl
          exact Span.End_ended _
      · simp only [takeLoop, hv, hr, if_true, if_false, Bool.false_eq_true]
        have hacc2 : ∀ x ∈ acc ++
            [(applyAct (startSpan nm (some
                { traceId := hex_to_trace_id junk s.trace_id,
                  spanId := hex_to_span_id junk s.span_id }) (fresh i))
              (acts i)).setStatus SpanStatus.ok |>.End], x.ended = true := by
          intro x hx
          rcases List.mem_append.mp hx with h | h
          · exact hacc x h
          · rcases List.mem_singleton.mp h with rfl
            exact Span.End_ended _
        have hlen2 : (acc ++
            [(applyAct (startSpan nm (some
                { traceId := hex_to_trace_id junk s.trace_id,
                  spanId := hex_to_span_id junk s.span_id }) (fresh i))
              (acts i)).setStatus SpanStatus.ok |>.End]).length = p + 1 := by
          simp [hlen]
        have h := ih (i + 1) (p + 1) [] [] _ hacc2 hlen2
        refine ⟨h.1, fun hf => ⟨(h.2.1 hf).1, ?_⟩, h.2.2⟩
        rw [(h.2.1 hf).2]
        simp [List.filter, hv]
        omega
    · simp only [takeLoop, hv, Bool.false_eq_true, if_false]
      have h := ih (i + 1) p ta sa acc hacc hlen
      refine ⟨h.1, fun hf => ⟨(h.2.1 hf).1, ?_⟩, h.2.2⟩
      rw [(h.2.1 hf).2]
      simp [List.filter, hv]

/-! ## Concrete fixtures for witnesses and counterexamples -/

/-- Zero-initialised decode scratch buffer. -/
def junk0 : Nat → Nat := fun _ => 0

/-- A concrete id-generator stream for `Reader::take`. -/
def fresh0 : Nat → SpanContext :=
  fun _ => { traceId := List.replicate 16 1, spanId := List.replicate 8 2 }

/-- A concrete freshly generated id pair for `Writer::write`. -/
def fresh1 : SpanContext := { traceId := List.replicate 16 1, spanId := List.replicate 8 2 }

/-- A handler that returns normally without touching the span status. -/
def okActs : Nat → HandlerAct := fun _ => { setStatus := none, raises := false }

/-- A handler that throws without touching the span status. -/
def raiseActs : Nat → HandlerAct := fun _ => { setStatus := none, raises := true }

/-- A handler that sets an explicit error status and returns normally. -/
def errActs : Nat → HandlerAct :=
  fun _ => { setStatus := some (SpanStatus.error "handler failure"), raises := false }

/-- A valid sample carrying no incoming context (both strings empty). -/
def sampleEmptyCtx : Sample := { valid := true, trace_id := [], span_id := [] }

/-- A concrete nonzero 16-byte trace id. -/
def tb0 : Bytes := List.replicate 16 171

/-- A concrete nonzero 8-byte span id. -/
def sb0 : Bytes := List.replicate 8 205

/-- The 32-character string `"1z1z...1z"`: correct length, non-hex
characters (`'1'` = 49, `'z'` = 122). -/
def badHex32 : HexStr := (List.replicate 16 [49, 122]).flatten

/-- One concrete fan-in input link. -/
def linkA : TraceLink :=
  { trace_id := trace_id_to_hex tb0, span_id := span_id_to_hex sb0, sensor_id := "RADAR-1" }

/-! ## Claims -/

/-- Claim C1 (amended): starting from an empty per-thread ActiveContext,
`Reader::take` leaves both `g_active_trace_id` and `g_active_span_id`
empty immediately after the call, provided no handler invocation raises an
exception (the loop clears them after every callback return).  The
original "regardless of handler behavior" is refuted by
`take_leaks_on_raise_cex`. -/
theorem take_clears_context (junk : Nat → Nat) (fresh : Nat → SpanContext)
    (acts : Nat → HandlerAct) (nm : String) (samples : List Sample)
    (hnr : ∀ i, (acts i).raises = false) :
    (Reader.take junk fresh acts nm samples [] []).activeTraceId = [] ∧
    (Reader.take junk fresh acts nm samples [] []).activeSpanId = [] :=
  takeLoop_clears junk fresh acts nm hnr samples 0 0 []

/-- Witness for `take_clears_context` at one valid message with a
normally returning handler. -/
theorem take_clears_context_witness :
    (Reader.take junk0 fresh0 okActs "on-message" [sampleEmptyCtx] [] []).activeTraceId = [] ∧
    (Reader.take junk0 fresh0 okActs "on-message" [sampleEmptyCtx] [] []).activeSpanId = [] :=
  take_clears_context junk0 fresh0 okActs "on-message" [sampleEmptyCtx] (fun _ => rfl)

/-- Counterexample to claim C1 as stated: when the handler for the single
valid message throws, `Reader::take` (which has no try/catch) propagates
the exception with both thread-local context strings still populated. -/
theorem take_leaks_on_raise_cex :
    (Reader.take junk0 fresh0 raiseActs "on-message" [sampleEmptyCtx] [] []).raised = true ∧
    (Reader.take junk0 fresh0 raiseActs "on-message" [sampleEmptyCtx] [] []).activeTraceId ≠ [] ∧
    (Reader.take junk0 fresh0 raiseActs "on-message" [sampleEmptyCtx] [] []).activeSpanId ≠ [] := by
  decide

/-- Claim C2 (amended): `Reader::take` ends every span it starts — one
per valid message whose handler it invokes — even if every handler
invocation errors: a raising handler's span is ended by the SDK `Span`
destructor during stack unwinding (with whatever status it had at the
throw).  On normal completion the span count equals the processed count,
which equals the number of valid samples; on a raise the span count is
the completed count plus one for the aborted message.  However the error
is not caught at the interceptor boundary: it propagates with no error
status recorded on the span and without ActiveContext cleanup (see
`take_raise_uncaught_cex` against the original claim). -/
theorem take_total_finalize (junk : Nat → Nat) (fresh : Nat → SpanContext)
    (acts : Nat → HandlerAct) (nm : String) (samples : List Sample) (ta sa : HexStr) :
    (∀ s ∈ (Reader.take junk fresh acts nm samples ta sa).spans, s.ended = true) ∧
    ((Reader.take junk fresh acts nm samples ta sa).raised = false →
      (Reader.take junk fresh acts nm samples ta sa).spans.length =
        (Reader.take junk fresh acts nm samples ta sa).processed ∧
      (Reader.take junk fresh acts nm samples ta sa).processed =
        (samples.filter (fun s => s.valid)).length) ∧
    ((Reader.take junk fresh acts nm samples ta sa).raised = true →
      (Reader.take junk fresh acts nm samples ta sa).spans.length =
        (Reader.take junk fresh acts nm samples ta sa).processed + 1) := by
  have h := takeLoop_finalize junk fresh acts nm samples 0 0 ta sa []
    (fun s hs => absurd hs (List.not_mem_nil s)) rfl
  simp only [Reader.take]
  exact ⟨h.1, fun hf => ⟨(h.2.1 hf).1, by simpa using (h.2.1 hf).2⟩, h.2.2⟩

/-- Witness for `take_total_finalize` on a raising handler: the aborted
message's span is still ended and counted. -/
theorem take_total_finalize_witness :
    (∀ s ∈ (Reader.take junk0 fresh0 raiseActs "on-message" [sampleEmptyCtx] [] []).spans,
      s.ended = true) ∧
    (Reader.take junk0 fresh0 raiseActs "on-message" [sampleEmptyCtx] [] []).spans.length =
      (Reader.take junk0 fresh0 raiseActs "on-message" [sampleEmptyCtx] [] []).processed + 1 := by
  have h := take_total_finalize junk0 fresh0 raiseActs "on-message" [sampleEmptyCtx] [] []
  exact ⟨h.1, h.2.2 (by decide)⟩

/-- Counterexample to claim C2 as stated: with a single valid message
whose handler throws, the span is ended (by the SDK span destructor
during unwinding) but with status left `unset` — the error is never
recorded as span error status — the ActiveContext is not cleaned, and
the exception escapes without any catch at the interceptor boundary,
contradicting "a handler error does not skip ActiveContext cleanup ...,
is recorded as span error status, and is re-raised to the caller after
cleanup". -/
theorem take_raise_uncaught_cex :
    (Reader.take junk0 fresh0 raiseActs "on-batch" [sampleEmptyCtx] [] []).raised = true ∧
    (Reader.take junk0 fresh0 raiseActs "on-batch" [sampleEmptyCtx] [] []).spans.map
        (fun s => s.ended) = [true] ∧
    (Reader.take junk0 fresh0 raiseActs "on-batch" [sampleEmptyCtx] [] []).spans.map
        (fun s => s.status) = [SpanStatus.unset] ∧
    (Reader.take junk0 fresh0 raiseActs "on-batch" [sampleEmptyCtx] [] []).activeTraceId ≠ [] := by
  decide

/-- Claim C3 (amended): decoding any input whose length is not exactly 32
(trace ids) resp. 16 (span ids) yields the absent all-zero sentinel, and
decoding is total (never raises).  The original additionally promised the
sentinel for correct-length inputs with non-hex characters; refuted by
`hex_decode_nonhex_cex`. -/
theorem hex_decode_fail_closed (junk : Nat → Nat) (hex : HexStr) :
    (hex.length ≠ 32 → hex_to_trace_id junk hex = absentTraceId) ∧
    (hex.length ≠ 16 → hex_to_span_id junk hex = absentSpanId) := by
  constructor <;> intro h <;> simp [hex_to_trace_id, hex_to_span_id, h]

/-- Witness for `hex_decode_fail_closed` at the one-character input `"1"`. -/
theorem hex_decode_fail_closed_witness :
    hex_to_trace_id junk0 [49] = absentTraceId ∧
    hex_to_span_id junk0 [49] = absentSpanId :=
  ⟨(hex_decode_fail_closed junk0 [49]).1 (by decide),
   (hex_decode_fail_closed junk0 [49]).2 (by decide)⟩

/-- Counterexample to claim C3 as stated: the 32-character input
`"1z1z...1z"` contains non-hex characters, yet `hex_to_trace_id` (whose
only guard is the length check, after which each `sscanf` converts the
leading `'1'` of every pair) returns 16 bytes of value 1, not the absent
sentinel. -/
theorem hex_decode_nonhex_cex :
    badHex32.length = 32 ∧
    badHex32.any (fun c => (hexVal? c).isNone) = true ∧
    hex_to_trace_id junk0 badHex32 ≠ absentTraceId := by
  decide

/-- Claim C4 (amended): `Writer::write` with an empty per-thread
ActiveContext yields a span with empty parent and the freshly generated
trace id; while the ActiveContext holds a valid canonical pair `(T,S)`,
the span's trace id is `T`'s value and its parent span id is `S`'s value,
and the outgoing message carries `T` as `trace_id` — but the message's
`parent_span_id` field is always the empty string (`Writer::inject` line
224), not `S`; refuted as originally stated by
`write_msg_parent_empty_cex`. -/
theorem write_propagation (junk : Nat → Nat) (fresh : SpanContext) (ret : Int) (nm : String)
    (tb sb : Bytes) (htl : tb.length = 16) (htb : ∀ b ∈ tb, b < 256)
    (htv : traceIdIsValid tb = true)
    (hsl : sb.length = 8) (hsb : ∀ b ∈ sb, b < 256) (hsv : spanIdIsValid sb = true) :
    ((Writer.write junk fresh ret [] [] nm).span.traceId = fresh.traceId ∧
     (Writer.write junk fresh ret [] [] nm).span.parentSpanId = absentSpanId) ∧
    ((Writer.write junk fresh ret (trace_id_to_hex tb) (span_id_to_hex sb) nm).span.traceId
        = tb ∧
     (Writer.write junk fresh ret (trace_id_to_hex tb) (span_id_to_hex sb) nm).span.parentSpanId
        = sb ∧
     (Writer.write junk fresh ret (trace_id_to_hex tb) (span_id_to_hex sb) nm).msgCtx.trace_id
        = trace_id_to_hex tb ∧
     (Writer.write junk fresh ret (trace_id_to_hex tb) (span_id_to_hex sb) nm).msgCtx.parent_span_id
        = []) := by
  have hT : trace_id_to_hex tb ≠ [] := by
    intro h
    have hlen := bytesToHex_length tb
    rw [htl] at hlen
    rw [trace_id_to_hex] at h
    rw [h] at hlen
    simp at hlen
  have hS : span_id_to_hex sb ≠ [] := by
    intro h
    have hlen := bytesToHex_length sb
    rw [hsl] at hlen
    rw [span_id_to_hex] at h
    rw [h] at hlen
    simp at hlen
  have hvalid : spanContextIsValid
      { traceId := hex_to_trace_id junk (trace_id_to_hex tb),
        spanId := hex_to_span_id junk (span_id_to_hex sb) } = true := by
    rw [hex_to_trace_id_round junk tb htl htb, hex_to_span_id_round junk sb hsl hsb]
    simp [spanContextIsValid, htv, hsv]
  have hw : writeStartSpan junk fresh (trace_id_to_hex tb) (span_id_to_hex sb) nm =
      { name := nm, traceId := tb, spanId := fresh.spanId,
        parentSpanId := sb, status := SpanStatus.unset, ended := false, links := [] } := by
    rw [writeStartSpan, if_pos ⟨hT, hS⟩, startSpan_some_valid _ _ _ hvalid,
      hex_to_trace_id_round junk tb htl htb, hex_to_span_id_round junk sb hsl hsb]
  have hids0 := write_span_ids junk fresh ret [] [] nm
  have hids1 := write_span_ids junk fresh ret (trace_id_to_hex tb) (span_id_to_hex sb) nm
  refine ⟨⟨?_, ?_⟩, ?_, ?_, ?_, ?_⟩
  · rw [hids0.1, writeStartSpan_empty, startSpan_none]
  · rw [hids0.2, writeStartSpan_empty, startSpan_none]
  · rw [hids1.1, hw]
  · rw [hids1.2, hw]
  · show (Writer.inject
      (writeStartSpan junk fresh (trace_id_to_hex tb) (span_id_to_hex sb) nm)).trace_id = _
    rw [hw, Writer.inject]
  · rfl

/-- Witness for `write_propagation` at concrete valid ids. -/
theorem write_propagation_witness :
    ((Writer.write junk0 fresh1 0 [] [] "send").span.traceId = fresh1.traceId ∧
     (Writer.write junk0 fresh1 0 [] [] "send").span.parentSpanId = absentSpanId) ∧
    ((Writer.write junk0 fresh1 0 (trace_id_to_hex tb0) (span_id_to_hex sb0) "send").span.traceId
        = tb0 ∧
     (Writer.write junk0 fresh1 0 (trace_id_to_hex tb0) (span_id_to_hex sb0) "send").span.parentSpanId
        = sb0 ∧
     (Writer.write junk0 fresh1 0 (trace_id_to_hex tb0) (span_id_to_hex sb0) "send").msgCtx.trace_id
        = trace_id_to_hex tb0 ∧
     (Writer.write junk0 fresh1 0 (trace_id_to_hex tb0) (span_id_to_hex sb0) "send").msgCtx.parent_span_id
        = []) :=
  write_propagation junk0 fresh1 0 "send" tb0 sb0 (by decide) (by decide) (by decide)
    (by decide) (by decide) (by decide)

/-- Counterexample to claim C4 as stated: with the ActiveContext holding
the valid pair `(T,S)` below, the outgoing message's encoded
`parent_span_id` is the empty string, not `S`. -/
theorem write_msg_parent_empty_cex :
    (Writer.write junk0 fresh1 0 (trace_id_to_hex tb0) (span_id_to_hex sb0)
        "send").msgCtx.parent_span_id ≠ span_id_to_hex sb0 ∧
    span_id_to_hex sb0 ≠ [] := by
  decide

/-- Claim C5: at the end of each per-message cycle, `Reader::take` line
310 executes `span->SetStatus(kOk)` unconditionally, so a handler-set
error status is overwritten with `ok`, contradicting the claim (and the
code's own comment "Auto-set OK status if not already set").  This
theorem evaluates the code at the failing input: one valid message whose
handler sets an explicit error status and returns normally — the span is
nevertheless ended with status `ok`. -/
theorem take_overwrites_handler_error :
    (errActs 0).setStatus = some (SpanStatus.error "handler failure") ∧
    (Reader.take junk0 fresh0 errActs "on-message" [sampleEmptyCtx] [] []).spans.map
        (fun s => s.status) = [SpanStatus.ok] ∧
    (Reader.take junk0 fresh0 errActs "on-message" [sampleEmptyCtx] [] []).spans.map
        (fun s => s.ended) = [true] := by
  decide

/-- Claim C6 (confirmed): for every 16-byte trace id and 8-byte span id,
decoding the encoded lowercase-hex form returns the original id, for both
the 32-hex and the 16-hex codec. -/
theorem codec_round_trip (junk : Nat → Nat) (tb sb : Bytes)
    (htl : tb.length = 16) (htb : ∀ b ∈ tb, b < 256)
    (hsl : sb.length = 8) (hsb : ∀ b ∈ sb, b < 256) :
    hex_to_trace_id junk (trace_id_to_hex tb) = tb ∧
    hex_to_span_id junk (span_id_to_hex sb) = sb :=
  ⟨hex_to_trace_id_round junk tb htl htb, hex_to_span_id_round junk sb hsl hsb⟩

/-- Witness for `codec_round_trip` at concrete ids. -/
theorem codec_round_trip_witness :
    hex_to_trace_id junk0 (trace_id_to_hex tb0) = tb0 ∧
    hex_to_span_id junk0 (span_id_to_hex sb0) = sb0 :=
  codec_round_trip junk0 tb0 sb0 (by decide) (by decide) (by decide) (by decide)

/-- Claim C7 (spec-modelled, confirmed): `create_linked_span` (whose
definition is not under src/; modelled from spec section 4.5) always
starts a new root trace — its span is parented on none of the inputs —
records exactly one non-parenting link per input context matching that
input, and, the generated root id being fresh (hypothesis `hfresh`), its
trace id differs from every input's trace id. -/
theorem fan_in_identity (fresh : SpanContext) (nm : String) (links : List TraceLink)
    (hfresh : ∀ l ∈ links, trace_id_to_hex fresh.traceId ≠ l.trace_id) :
    (create_linked_span fresh nm links).parentSpanId = absentSpanId ∧
    (create_linked_span fresh nm links).links = links ∧
    ∀ l ∈ links, trace_id_to_hex (create_linked_span fresh nm links).traceId ≠ l.trace_id :=
  ⟨rfl, rfl, hfresh⟩

/-- Witness for `fan_in_identity` at one concrete input link whose trace
id differs from the generated root id. -/
theorem fan_in_identity_witness :
    (create_linked_span fresh1 "fuse-tracks" [linkA]).parentSpanId = absentSpanId ∧
    (create_linked_span fresh1 "fuse-tracks" [linkA]).links = [linkA] ∧
    ∀ l ∈ [linkA],
      trace_id_to_hex (create_linked_span fresh1 "fuse-tracks" [linkA]).traceId ≠ l.trace_id :=
  fan_in_identity fresh1 "fuse-tracks" [linkA] (by decide)

/-- Claim C8 (confirmed): `Writer::write` returns success exactly when
the transport's `dds_write` returns a non-negative code, sets the span
status to `ok` on transport success and to `error` with a description
otherwise, and the span is ended on every exit path. -/
theorem write_mirrors_transport (junk : Nat → Nat) (fresh : SpanContext) (ret : Int)
    (ta sa : HexStr) (nm : String) :
    ((Writer.write junk fresh ret ta sa nm).ok = true ↔ 0 ≤ ret) ∧
    (Writer.write junk fresh ret ta sa nm).span.ended = true ∧
    (0 ≤ ret → (Writer.write junk fresh ret ta sa nm).span.status = SpanStatus.ok) ∧
    (ret < 0 →
      (Writer.write junk fresh ret ta sa nm).span.status =
        SpanStatus.error "DDS write failed") := by
  have he := writeStartSpan_ended junk fresh ta sa nm
  refine ⟨by simp [Writer.write], ?_, ?_, ?_⟩
  · unfold Writer.write
    by_cases h : 0 ≤ ret <;> simp [h, Span.End_ended]
  · intro h
    unfold Writer.write
    simp [h, Span.End_status, Span.setStatus_status _ _ he]
  · intro h
    have h2 : ¬ 0 ≤ ret := by omega
    unfold Writer.write
    simp [h2, Span.End_status, Span.setStatus_status _ _ he]

/-- Witness for `write_mirrors_transport` on a failing transport return. -/
theorem write_mirrors_transport_witness :
    ((Writer.write junk0 fresh1 (-1 : Int) [] [] "send").ok = true ↔ (0 : Int) ≤ -1) ∧
    (Writer.write junk0 fresh1 (-1 : Int) [] [] "send").span.ended = true ∧
    (Writer.write junk0 fresh1 (-1 : Int) [] [] "send").span.status =
      SpanStatus.error "DDS write failed" := by
  have h := write_mirrors_transport junk0 fresh1 (-1 : Int) [] [] "send"
  exact ⟨h.1, h.2.1, h.2.2.2 (by decide)⟩

/-- Claim C9 (confirmed): `internal::do_init` resolves the configuration
once — a call on an already-initialized state is a no-op — and completes
for every combination of present/absent settings, falling back to the
sentinel `"unknown-service"` when the service-name variable is absent and
to the default endpoint when the endpoint variable is absent. -/
theorem do_init_resolves_config (sn ep : Option String) (st : InitState) :
    (do_init { initialized := false, serviceName := "", endpoint := "" } sn ep).initialized
      = true ∧
    (do_init { initialized := false, serviceName := "", endpoint := "" } sn ep).serviceName
      = sn.getD "unknown-service" ∧
    (do_init { initialized := false, serviceName := "", endpoint := "" } sn ep).endpoint
      = ep.getD "http://localhost:4318/v1/traces" ∧
    (st.initialized = true → do_init st sn ep = st) := by
  refine ⟨rfl, rfl, rfl, fun h => by simp [do_init, h]⟩

/-- Witness for `do_init_resolves_config` with both settings absent and a
second call on the resulting initialized state. -/
theorem do_init_resolves_config_witness :
    (do_init { initialized := false, serviceName := "", endpoint := "" } none none).initialized
      = true ∧
    (do_init { initialized := false, serviceName := "", endpoint := "" } none none).serviceName
      = "unknown-service" ∧
    (do_init { initialized := false, serviceName := "", endpoint := "" } none none).endpoint
      = "http://localhost:4318/v1/traces" ∧
    do_init { initialized := true, serviceName := "svc", endpoint := "x" } none none
      = { initialized := true, serviceName := "svc", endpoint := "x" } := by
  have h := do_init_resolves_config none none
    { initialized := true, serviceName := "svc", endpoint := "x" }
  exact ⟨h.1, h.2.1, h.2.2.1, h.2.2.2 rfl⟩

/-- Claim C10 (confirmed): when exactly one of the two thread-local
ActiveContext strings is non-empty, the `&&` guard in `Writer::write`
fails, so the context is treated as absent and a root span on a fresh
trace is started — continuation requires both slots non-empty. -/
theorem write_root_on_partial_context (junk : Nat → Nat) (fresh : SpanContext) (ret : Int)
    (nm : String) (ta sa : HexStr)
    (h : (ta = [] ∧ sa ≠ []) ∨ (ta ≠ [] ∧ sa = [])) :
    (Writer.write junk fresh ret ta sa nm).span.traceId = fresh.traceId ∧
    (Writer.write junk fresh ret ta sa nm).span.parentSpanId = absentSpanId := by
  have hcond : ¬(ta ≠ [] ∧ sa ≠ []) := by
    rcases h with ⟨h1, h2⟩ | ⟨h1, h2⟩ <;> simp [h1, h2]
  have hw : writeStartSpan junk fresh ta sa nm = startSpan nm none fresh := by
    rw [writeStartSpan, if_neg hcond]
  have hids := write_span_ids junk fresh ret ta sa nm
  exact ⟨by rw [hids.1, hw, startSpan_none], by rw [hids.2, hw, startSpan_none]⟩

/-- Witness for `write_root_on_partial_context` with only the trace-id
slot populated. -/
theorem write_root_on_partial_context_witness :
    (Writer.write junk0 fresh1 0 (trace_id_to_hex tb0) [] "send").span.traceId
      = fresh1.traceId ∧
    (Writer.write junk0 fresh1 0 (trace_id_to_hex tb0) [] "send").span.parentSpanId
      = absentSpanId :=
  write_root_on_partial_context junk0 fresh1 0 "send" (trace_id_to_hex tb0) []
    (Or.inr ⟨by decide, rfl⟩)
